import Mathlib

/-!
Shallow embedding of the product/order backend (`src/main.py`, `src/schemas.py`).

Request bodies are JSON objects (association lists of `JValue`); monetary
amounts are modelled as rationals.  The document store is explicit state:
a `Store` holding the `product` and `order` collections plus an id counter.
The store adapter itself (`database.py`: the `db` handle and
`create_document`) is not part of the sources, so its contract is modelled
from the spec (section 4.1): `insert(collection, document) -> id` appends
the document verbatim and returns the string form of a fresh identity.
-/

/-- A JSON value, as parsed from a request body. -/
inductive JValue where
  | str : String → JValue
  | num : ℚ → JValue
  | bool : Bool → JValue
  | null : JValue
  | arr : List JValue → JValue
  | obj : List (String × JValue) → JValue
deriving Repr

/-- A JSON object body: an association list of fields. -/
abbrev JObj := List (String × JValue)

/-- First value bound to key `k`, as a JSON object lookup. -/
def jLookup (o : JObj) (k : String) : Option JValue :=
  match o with
  | [] => none
  | (k', v) :: rest => if k' = k then some v else jLookup rest k

/-- `schemas.Product`: the validated create-product payload. -/
structure Product where
  title : String
  description : Option String
  price : ℚ
  category : String
  image : Option String
  in_stock : Bool
deriving Repr, DecidableEq

/-- `schemas.OrderItem`: one validated order line. -/
structure OrderItem where
  product_id : String
  title : String
  price : ℚ
  quantity : Int
  image : Option String
deriving Repr, DecidableEq

/-- `schemas.Order`: the validated create-order payload. -/
structure Order where
  items : List OrderItem
  subtotal : ℚ
  shipping : ℚ
  tax : ℚ
  total : ℚ
  customer_name : String
  customer_email : String
  address_line1 : String
  address_line2 : Option String
  city : String
  state : String
  postal_code : String
  country : String
deriving Repr, DecidableEq

/-- A required `str` field (`Field(...)`): present and a string. -/
def vReqStr (o : JObj) (k : String) : Option String :=
  match jLookup o k with
  | some (.str s) => some s
  | _ => none

/-- An optional `str` field (`Field(None)`): missing or null maps to `none`. -/
def vOptStr (o : JObj) (k : String) : Except Unit (Option String) :=
  match jLookup o k with
  | none => .ok none
  | some .null => .ok none
  | some (.str s) => .ok (some s)
  | some _ => .error ()

/-- The value of one decimal digit, or `none` for a non-digit. -/
def digitVal (c : Char) : Option Nat :=
  if c.isDigit then some (c.toNat - 48) else none

/-- Read a run of decimal digits into a number, failing on any non-digit
character. -/
def parseDigitsAux : List Char → Nat → Option Nat
  | [], acc => some acc
  | c :: cs, acc =>
      match digitVal c with
      | some d => parseDigitsAux cs (10 * acc + d)
      | none => none

/-- Split a character list at the first decimal point, if any. -/
def splitDot : List Char → List Char × Option (List Char)
  | [] => ([], none)
  | c :: rest =>
      if c = '.' then ([], some rest)
      else
        let p := splitDot rest
        (c :: p.1, p.2)

/-- Parse an unsigned decimal numeral (digits with an optional fractional
part) as a rational. -/
def parseDecimal (cs : List Char) : Option ℚ :=
  match splitDot cs with
  | (i, none) =>
      if i = [] then none
      else (parseDigitsAux i 0).map (fun n => (n : ℚ))
  | (i, some f) =>
      if i = [] ∧ f = [] then none
      else
        match parseDigitsAux i 0, parseDigitsAux f 0 with
        | some ni, some nf =>
            some ((ni : ℚ) + (nf : ℚ) / (10 : ℚ) ^ f.length)
        | _, _ => none

/-- Parse a signed decimal string as a rational: the number a numeric
string coerces to under pydantic lax mode (scientific notation and
infinities are not modelled). -/
def parseRat (s : String) : Option ℚ :=
  match s.data with
  | [] => none
  | '-' :: rest => (parseDecimal rest).map (fun q => -q)
  | '+' :: rest => parseDecimal rest
  | cs => parseDecimal cs

/-- Parse a signed integer string, as pydantic lax mode coerces a string
for an `int` field (a fractional part is rejected). -/
def parseInt (s : String) : Option Int :=
  match s.data with
  | [] => none
  | '-' :: rest =>
      if rest = [] then none
      else (parseDigitsAux rest 0).map (fun n => -(n : Int))
  | '+' :: rest =>
      if rest = [] then none
      else (parseDigitsAux rest 0).map (fun n => (n : Int))
  | cs => (parseDigitsAux cs 0).map (fun n => (n : Int))

/-- A required `float` field with `ge=0`: pydantic lax mode accepts a
number, or a numeric string coerced via `parseRat`; the bound then
requires the value to be non-negative. -/
def vReqMoney (o : JObj) (k : String) : Option ℚ :=
  match jLookup o k with
  | some (.num q) => if 0 ≤ q then some q else none
  | some (.str sv) =>
      match parseRat sv with
      | some q => if 0 ≤ q then some q else none
      | none => none
  | _ => none

/-- A required `int` field with `ge=1`: pydantic lax mode accepts an
integral number, or an integer string coerced via `parseInt`; the bound
then requires the value to be at least one. -/
def vReqQty (o : JObj) (k : String) : Option Int :=
  match jLookup o k with
  | some (.num q) => if q.den = 1 ∧ 1 ≤ q then some q.num else none
  | some (.str sv) =>
      match parseInt sv with
      | some n => if 1 ≤ n then some n else none
      | none => none
  | _ => none

/-- Lowercase a string character by character (ASCII). -/
def lowerStr (s : String) : String := String.mk (s.data.map Char.toLower)

/-- A `bool` field with default `True` (`Field(True)`): pydantic lax mode
accepts a bool, the truthy/falsy strings, or the numbers 0 and 1. -/
def vBoolDefTrue (o : JObj) (k : String) : Except Unit Bool :=
  match jLookup o k with
  | none => .ok true
  | some (.bool b) => .ok b
  | some (.str sv) =>
      if lowerStr sv = "true" ∨ lowerStr sv = "yes" ∨ lowerStr sv = "on" ∨ sv = "1" then .ok true
      else if lowerStr sv = "false" ∨ lowerStr sv = "no" ∨ lowerStr sv = "off" ∨ sv = "0" then .ok false
      else .error ()
  | some (.num q) =>
      if q = 1 then .ok true
      else if q = 0 then .ok false
      else .error ()
  | _ => .error ()

/-- The offending field names of a `Product` payload. -/
def productErrors (o : JObj) : List String :=
  (if (vReqStr o "title").isNone then ["title"] else []) ++
  (if (vOptStr o "description").isOk then [] else ["description"]) ++
  (if (vReqMoney o "price").isNone then ["price"] else []) ++
  (if (vReqStr o "category").isNone then ["category"] else []) ++
  (if (vOptStr o "image").isOk then [] else ["image"]) ++
  (if (vBoolDefTrue o "in_stock").isOk then [] else ["in_stock"])

/-- Pydantic validation of the `Product` schema: on failure, the names of
the offending fields. -/
def validateProduct (o : JObj) : Except (List String) Product :=
  match vReqStr o "title", vOptStr o "description", vReqMoney o "price",
        vReqStr o "category", vOptStr o "image", vBoolDefTrue o "in_stock" with
  | some t, .ok d, some p, some c, .ok i, .ok st => .ok ⟨t, d, p, c, i, st⟩
  | _, _, _, _, _, _ => .error (productErrors o)

/-- The offending field names of an `OrderItem` payload. -/
def orderItemErrors (o : JObj) : List String :=
  (if (vReqStr o "product_id").isNone then ["product_id"] else []) ++
  (if (vReqStr o "title").isNone then ["title"] else []) ++
  (if (vReqMoney o "price").isNone then ["price"] else []) ++
  (if (vReqQty o "quantity").isNone then ["quantity"] else []) ++
  (if (vOptStr o "image").isOk then [] else ["image"])

/-- Pydantic validation of one `OrderItem`. -/
def validateOrderItem (o : JObj) : Except (List String) OrderItem :=
  match vReqStr o "product_id", vReqStr o "title", vReqMoney o "price",
        vReqQty o "quantity", vOptStr o "image" with
  | some pid, some t, some p, some q, .ok i => .ok ⟨pid, t, p, q, i⟩
  | _, _, _, _, _ => .error (orderItemErrors o)

/-- Validate the `items` list: a required `List[OrderItem]`; each element
must itself be an object that validates as an `OrderItem`.  An empty list
is accepted (no non-empty constraint is declared on the field). -/
def validateItemList : List JValue → Except Unit (List OrderItem)
  | [] => .ok []
  | .obj f :: rest =>
      match validateOrderItem f, validateItemList rest with
      | .ok it, .ok its => .ok (it :: its)
      | _, _ => .error ()
  | _ :: _ => .error ()

/-- The `items` field of an `Order`: required, must be a JSON array. -/
def vItems (o : JObj) : Except Unit (List OrderItem) :=
  match jLookup o "items" with
  | some (.arr xs) => validateItemList xs
  | _ => .error ()

/-- The offending field names of an `Order` payload. -/
def orderErrors (o : JObj) : List String :=
  (if (vItems o).isOk then [] else ["items"]) ++
  (if (vReqMoney o "subtotal").isNone then ["subtotal"] else []) ++
  (if (vReqMoney o "shipping").isNone then ["shipping"] else []) ++
  (if (vReqMoney o "tax").isNone then ["tax"] else []) ++
  (if (vReqMoney o "total").isNone then ["total"] else []) ++
  (if (vReqStr o "customer_name").isNone then ["customer_name"] else []) ++
  (if (vReqStr o "customer_email").isNone then ["customer_email"] else []) ++
  (if (vReqStr o "address_line1").isNone then ["address_line1"] else []) ++
  (if (vOptStr o "address_line2").isOk then [] else ["address_line2"]) ++
  (if (vReqStr o "city").isNone then ["city"] else []) ++
  (if (vReqStr o "state").isNone then ["state"] else []) ++
  (if (vReqStr o "postal_code").isNone then ["postal_code"] else []) ++
  (if (vReqStr o "country").isNone then ["country"] else [])

/-- Pydantic validation of the `Order` schema. -/
def validateOrder (o : JObj) : Except (List String) Order :=
  match vItems o, vReqMoney o "subtotal", vReqMoney o "shipping",
        vReqMoney o "tax", vReqMoney o "total", vReqStr o "customer_name",
        vReqStr o "customer_email", vReqStr o "address_line1",
        vOptStr o "address_line2", vReqStr o "city", vReqStr o "state",
        vReqStr o "postal_code", vReqStr o "country" with
  | .ok its, some sub, some shp, some tax, some tot, some cn, some ce,
    some a1, .ok a2, some ci, some stt, some pc, some co =>
      .ok ⟨its, sub, shp, tax, tot, cn, ce, a1, a2, ci, stt, pc, co⟩
  | _, _, _, _, _, _, _, _, _, _, _, _, _ => .error (orderErrors o)

/-- A stored product document.  Fields other than the identity may be
absent (seed/legacy documents), modelled as `Option`. -/
structure Doc where
  oid : Nat
  title : Option String
  description : Option String
  price : Option ℚ
  category : Option String
  image : Option String
  in_stock : Option Bool
deriving Repr, DecidableEq

/-- A stored order document: identity plus the order payload.
Modelled from the spec: `create_document` (store adapter, not in the
sources) inserts the validated document verbatim. -/
structure OrderDoc where
  oid : Nat
  data : Order
deriving Repr, DecidableEq

/-- The document store's state: the `product` and `order` collections and
a counter assigning fresh identities on insert.
Modelled from the spec: the store assigns an opaque string id on insert. -/
structure Store where
  product : List Doc
  order : List OrderDoc
  nextId : Nat
deriving Repr, DecidableEq

/-- The configured-or-not database handle (`db` may be `None`). -/
structure DbHandle where
  name : String
  listCollections : Except String (List String)
deriving Repr

/-- Errors an endpoint can produce. -/
inductive ApiError where
  | http : Nat → String → ApiError
  | validation : List String → ApiError
  | internal : ApiError
deriving Repr, DecidableEq

/-- The HTTP status code of an `ApiError`: request-validation failures are
422, response-model failures are 500. -/
def ApiError.status : ApiError → Nat
  | .http s _ => s
  | .validation _ => 422
  | .internal => 500

/-- `main.ProductResponse`: the response shape of `GET /api/products`. -/
structure ProductResponse where
  id : String
  title : String
  description : Option String
  price : ℚ
  category : String
  image : Option String
  in_stock : Bool
deriving Repr, DecidableEq

/-- `main.to_response`: map a stored document to a `ProductResponse`.
`doc.get("title")` yields `None` when the field is missing, and the
response model's required `str` field rejects `None`, raising a
validation error — hence the mapping is partial exactly in `title`.
The other fields default: `price` to `0`, `category` to `"General"`,
`in_stock` to `true`; `description` and `image` stay nullable. -/
def to_response (doc : Doc) : Option ProductResponse :=
  match doc.title with
  | none => none
  | some t =>
      some { id := toString doc.oid
             title := t
             description := doc.description
             price := doc.price.getD 0
             category := doc.category.getD "General"
             image := doc.image
             in_stock := doc.in_stock.getD true }

/-- The three seed products of `list_products`, with identities assigned
by the store starting at `n`. -/
def sample_products (n : Nat) : List Doc :=
  [ { oid := n
      title := some "Minimalist Chair"
      description := some "A modern, comfortable chair with a minimalist design."
      price := some (8999 / 100 : ℚ)
      category := some "Furniture"
      image := some "https://images.unsplash.com/photo-1549187774-b4e9b0445b41?q=80&w=1200&auto=format&fit=crop"
      in_stock := some true },
    { oid := n + 1
      title := some "Wireless Headphones"
      description := some "Noise-cancelling over-ear headphones with 30h battery."
      price := some (129 : ℚ)
      category := some "Electronics"
      image := some "https://images.unsplash.com/photo-1518449037270-3c0758cd7ed0?q=80&w=1200&auto=format&fit=crop"
      in_stock := some true },
    { oid := n + 2
      title := some "Ceramic Mug"
      description := some "Handmade ceramic mug for coffee or tea (350ml)."
      price := some (33 / 2 : ℚ)
      category := some "Kitchen"
      image := some "https://images.unsplash.com/photo-1509463531436-7b8b53f6d4ba?q=80&w=1200&auto=format&fit=crop"
      in_stock := some true } ]

/-- Map every stored document through `to_response`, failing (as the list
comprehension in `list_products` does, by raising) if any single document
fails the response-model validation. -/
def mapResponses : List Doc → Option (List ProductResponse)
  | [] => some []
  | d :: rest =>
      match to_response d, mapResponses rest with
      | some r, some rs => some (r :: rs)
      | _, _ => none

/-- `GET /api/products` (`main.list_products`): fail fast when the store
is unconfigured; seed three sample products when the collection is empty
(a single `insert_many` batch); then map every stored document through
`to_response`.  If any document fails the response-model validation the
endpoint raises, surfacing as a 500 internal error (the seed insert, if
any, has already happened). -/
def list_products (db : Option DbHandle) (s : Store) :
    Except ApiError (List ProductResponse) × Store :=
  match db with
  | none => (.error (.http 500 "Database not configured"), s)
  | some _ =>
      let s1 : Store :=
        if s.product.length = 0 then
          { s with product := s.product ++ sample_products s.nextId
                   nextId := s.nextId + 3 }
        else s
      match mapResponses s1.product with
      | some rs => (.ok rs, s1)
      | none => (.error .internal, s1)

/-- The document inserted for a validated product payload.
Modelled from the spec: `create_document` stores the validated model's
fields verbatim under a fresh identity. -/
def docOfProduct (n : Nat) (p : Product) : Doc :=
  { oid := n
    title := some p.title
    description := p.description
    price := some p.price
    category := some p.category
    image := p.image
    in_stock := some p.in_stock }

/-- `POST /api/products` (`main.create_product`): the framework validates
the body against the `Product` schema before the handler runs; the handler
then checks the store and inserts, returning the new id. -/
def create_product (body : JObj) (db : Option DbHandle) (s : Store) :
    Except ApiError String × Store :=
  match validateProduct body with
  | .error fs => (.error (.validation fs), s)
  | .ok p =>
      match db with
      | none => (.error (.http 500 "Database not configured"), s)
      | some _ =>
          (.ok (toString s.nextId),
           { s with product := s.product ++ [docOfProduct s.nextId p]
                    nextId := s.nextId + 1 })

/-- The response of `POST /api/orders`. -/
structure OrderAck where
  id : String
  status : String
deriving Repr, DecidableEq

/-- `POST /api/orders` (`main.create_order`): body validated against the
`Order` schema first, then store check, then verbatim insert; returns
the new id with status `"received"`. -/
def create_order (body : JObj) (db : Option DbHandle) (s : Store) :
    Except ApiError OrderAck × Store :=
  match validateOrder body with
  | .error fs => (.error (.validation fs), s)
  | .ok o =>
      match db with
      | none => (.error (.http 500 "Database not configured"), s)
      | some _ =>
          (.ok { id := toString s.nextId, status := "received" },
           { s with order := s.order ++ [{ oid := s.nextId, data := o }]
                    nextId := s.nextId + 1 })

/-- The environment variables `GET /test` inspects. -/
structure Env where
  database_url_set : Bool
  database_name_set : Bool
deriving Repr, DecidableEq

/-- The diagnostics response of `GET /test`. -/
structure TestResponse where
  backend : String
  database : String
  database_url : String
  database_name : String
  connection_status : String
  collections : List String
deriving Repr, DecidableEq

/-- `GET /test` (`main.test_database`): a total function — every store
fault is folded into the `database` string (error text truncated to 50
characters) and the endpoint always returns success.  The
`database_url` / `database_name` flags are overwritten at the end from
the environment variables, so they reflect only environment presence. -/
def test_database (db : Option DbHandle) (env : Env) : TestResponse :=
  let database : String :=
    match db with
    | none => "⚠️  Available but not initialized"
    | some h =>
        match h.listCollections with
        | .ok _ => "✅ Connected & Working"
        | .error e => "⚠️  Connected but Error: " ++ e.take 50
  let collections : List String :=
    match db with
    | none => []
    | some h =>
        match h.listCollections with
        | .ok cs => cs.take 10
        | .error _ => []
  { backend := "✅ Running"
    database := database
    database_url := if env.database_url_set then "✅ Set" else "❌ Not Set"
    database_name := if env.database_name_set then "✅ Set" else "❌ Not Set"
    connection_status := if db.isSome then "Connected" else "Not Connected"
    collections := collections }

/-! Concrete fixtures used by witnesses and counterexamples. -/

/-- A configured database handle. -/
def wdb : DbHandle := { name := "app_db", listCollections := .ok ["product", "order"] }

/-- A handle whose collection enumeration fails with a long error text. -/
def wLongMsg : String :=
  "connection refused: could not reach the server at host 10.0.0.17 port 27017 after timeout"

/-- A configured handle that fails on introspection. -/
def wErrDb : DbHandle := { name := "app_db", listCollections := .error wLongMsg }

/-- A store with both collections empty. -/
def emptyStore : Store := { product := [], order := [], nextId := 0 }

/-- A valid create-product payload. -/
def lampBody : JObj :=
  [("title", .str "Desk Lamp"), ("price", .num 10), ("category", .str "Home")]

/-- The validated form of `lampBody`. -/
def lampProduct : Product :=
  { title := "Desk Lamp", description := none, price := 10, category := "Home",
    image := none, in_stock := true }

/-- A valid order line payload. -/
def wItem : JValue :=
  .obj [("product_id", .str "1"), ("title", .str "Desk Lamp"),
        ("price", .num 10), ("quantity", .num 2)]

/-- A valid create-order payload whose totals are deliberately inconsistent
(`subtotal + shipping + tax = 26` but `total = 99`). -/
def wOrderBody : JObj :=
  [("items", .arr [wItem]), ("subtotal", .num 20), ("shipping", .num 5),
   ("tax", .num 1), ("total", .num 99), ("customer_name", .str "Ada Lovelace"),
   ("customer_email", .str "ada@example.com"),
   ("address_line1", .str "1 Infinite Loop"), ("city", .str "Springfield"),
   ("state", .str "IL"), ("postal_code", .str "62704"), ("country", .str "US")]

/-- The validated form of `wOrderBody`. -/
def wOrder : Order :=
  { items := [{ product_id := "1", title := "Desk Lamp", price := 10,
                quantity := 2, image := none }],
    subtotal := 20, shipping := 5, tax := 1, total := 99,
    customer_name := "Ada Lovelace", customer_email := "ada@example.com",
    address_line1 := "1 Infinite Loop", address_line2 := none,
    city := "Springfield", state := "IL", postal_code := "62704",
    country := "US" }

/-- The same order payload with an empty `items` list. -/
def emptyItemsBody : JObj :=
  [("items", .arr []), ("subtotal", .num 20), ("shipping", .num 5),
   ("tax", .num 1), ("total", .num 99), ("customer_name", .str "Ada Lovelace"),
   ("customer_email", .str "ada@example.com"),
   ("address_line1", .str "1 Infinite Loop"), ("city", .str "Springfield"),
   ("state", .str "IL"), ("postal_code", .str "62704"), ("country", .str "US")]

/-- The validated form of `emptyItemsBody`. -/
def wEmptyOrder : Order :=
  { items := [], subtotal := 20, shipping := 5, tax := 1, total := 99,
    customer_name := "Ada Lovelace", customer_email := "ada@example.com",
    address_line1 := "1 Infinite Loop", address_line2 := none,
    city := "Springfield", state := "IL", postal_code := "62704",
    country := "US" }

/-- A stored document with every field beyond the identity missing. -/
def noTitleDoc : Doc :=
  { oid := 9, title := none, description := none, price := none,
    category := none, image := none, in_stock := none }

/-- A legacy document with only a title. -/
def bareDoc : Doc :=
  { oid := 7, title := some "Legacy Widget", description := none, price := none,
    category := none, image := none, in_stock := none }

/-- An environment with only `DATABASE_URL` set. -/
def wEnv : Env := { database_url_set := true, database_name_set := false }

/-- A product payload with a negative price. -/
def badPriceBody : JObj :=
  [("title", .str "Desk Lamp"), ("price", .num (-5)), ("category", .str "Home")]

/-- A product payload whose price is a string that does not parse as a
number, so even lax coercion rejects it. -/
def wrongPriceBody : JObj :=
  [("title", .str "Desk Lamp"), ("price", .str "ten"), ("category", .str "Home")]

/-- An order line payload with `quantity = 0`. -/
def zeroQtyItemFields : JObj :=
  [("product_id", .str "1"), ("title", .str "Desk Lamp"),
   ("price", .num 10), ("quantity", .num 0)]

/-- An order payload containing the zero-quantity line. -/
def zeroQtyOrderBody : JObj :=
  [("items", .arr [.obj zeroQtyItemFields]), ("subtotal", .num 20),
   ("shipping", .num 5), ("tax", .num 1), ("total", .num 26),
   ("customer_name", .str "Ada Lovelace"),
   ("customer_email", .str "ada@example.com"),
   ("address_line1", .str "1 Infinite Loop"), ("city", .str "Springfield"),
   ("state", .str "IL"), ("postal_code", .str "62704"), ("country", .str "US")]

/-- A store whose product collection holds one document lacking `title`. -/
def noTitleStore : Store := { product := [noTitleDoc], order := [], nextId := 10 }

/-! Helper lemmas about the validators and the response mapping. -/

lemma to_response_eq_none (d : Doc) (ht : d.title = none) :
    to_response d = none := by
  simp [to_response, ht]

lemma to_response_eq_some (d : Doc) (t : String) (ht : d.title = some t) :
    to_response d =
      some { id := toString d.oid
             title := t
             description := d.description
             price := d.price.getD 0
             category := d.category.getD "General"
             image := d.image
             in_stock := d.in_stock.getD true } := by
  simp [to_response, ht]

lemma mapResponses_eq_none (l : List Doc) (d : Doc)
    (hd : d ∈ l) (ht : d.title = none) :
    mapResponses l = none := by
  induction l with
  | nil => cases hd
  | cons a l ih =>
      rcases List.mem_cons.mp hd with h | h
      · subst h
        simp [mapResponses, to_response_eq_none d ht]
      · cases h' : to_response a <;> simp [mapResponses, h', ih h]

lemma mapResponses_eq_some (l : List Doc)
    (hl : ∀ d ∈ l, (d.title).isSome) :
    ∃ rs, mapResponses l = some rs ∧
      rs.map ProductResponse.id = l.map (fun d => toString d.oid) := by
  induction l with
  | nil => exact ⟨[], by simp [mapResponses]⟩
  | cons a l ih =>
      obtain ⟨t, ht⟩ := Option.isSome_iff_exists.mp (hl a (List.mem_cons_self a l))
      obtain ⟨rs, hrs, hid⟩ := ih (fun d hd => hl d (List.mem_cons_of_mem a hd))
      refine ⟨{ id := toString a.oid, title := t, description := a.description,
                price := a.price.getD 0, category := a.category.getD "General",
                image := a.image, in_stock := a.in_stock.getD true } :: rs, ?_, ?_⟩
      · simp [mapResponses, to_response_eq_some a t ht, hrs]
      · simp [hid]

lemma validateProduct_error_of (o : JObj)
    (h : vReqStr o "title" = none ∨ vReqMoney o "price" = none ∨
         vReqStr o "category" = none) :
    validateProduct o = .error (productErrors o) := by
  unfold validateProduct
  split
  · rename_i t d p c i st heq
    rcases h with h | h | h <;> simp_all
  · rfl

lemma validateOrder_error_of_items (o : JObj) (h : vItems o = .error ()) :
    validateOrder o = .error (orderErrors o) ∧ "items" ∈ orderErrors o := by
  constructor
  · unfold validateOrder
    split
    · rename_i heq _ _ _ _ _ _ _ _ _ _ _ _
      simp_all
    · rfl
  · simp [orderErrors, h, Except.isOk, Except.toBool]

lemma validateOrderItem_error_of_qty (o : JObj) (h : vReqQty o "quantity" = none) :
    validateOrderItem o = .error (orderItemErrors o) := by
  unfold validateOrderItem
  split
  · rename_i pid t p q i heq
    simp_all
  · rfl

lemma validateItemList_error_of_mem (xs : List JValue) (f : JObj)
    (hf : JValue.obj f ∈ xs) (he : ∃ e, validateOrderItem f = .error e) :
    validateItemList xs = .error () := by
  induction xs with
  | nil => cases hf
  | cons a xs ih =>
      rcases List.mem_cons.mp hf with h | h
      · subst h
        obtain ⟨e, he⟩ := he
        simp [validateItemList, he]
      · cases a with
        | obj g =>
            cases hg : validateOrderItem g <;>
              simp [validateItemList, hg, ih h]
        | str s => simp [validateItemList]
        | num q => simp [validateItemList]
        | bool b => simp [validateItemList]
        | null => simp [validateItemList]
        | arr l => simp [validateItemList]

/-! Claim theorems. -/

/-- C1: given an empty product collection and a configured store, the first
`GET /api/products` call inserts, as a single batch, exactly the three seed
products (Minimalist Chair $89.99 Furniture, Wireless Headphones $129.00
Electronics, Ceramic Mug $16.50 Kitchen, each with description, image URL
and `in_stock = true`) and returns exactly those three; a second sequential
call returns the same three, inserts nothing further, and the product count
stays 3. -/
theorem C1_first_list_seeds_three (h : DbHandle) (s : Store)
    (hp : s.product = []) :
    list_products (some h) s =
      (.ok
        [{ id := toString s.nextId, title := "Minimalist Chair",
           description := some "A modern, comfortable chair with a minimalist design.",
           price := (8999 / 100 : ℚ), category := "Furniture",
           image := some "https://images.unsplash.com/photo-1549187774-b4e9b0445b41?q=80&w=1200&auto=format&fit=crop",
           in_stock := true },
         { id := toString (s.nextId + 1), title := "Wireless Headphones",
           description := some "Noise-cancelling over-ear headphones with 30h battery.",
           price := (129 : ℚ), category := "Electronics",
           image := some "https://images.unsplash.com/photo-1518449037270-3c0758cd7ed0?q=80&w=1200&auto=format&fit=crop",
           in_stock := true },
         { id := toString (s.nextId + 2), title := "Ceramic Mug",
           description := some "Handmade ceramic mug for coffee or tea (350ml).",
           price := (33 / 2 : ℚ), category := "Kitchen",
           image := some "https://images.unsplash.com/photo-1509463531436-7b8b53f6d4ba?q=80&w=1200&auto=format&fit=crop",
           in_stock := true }],
       { s with product := sample_products s.nextId, nextId := s.nextId + 3 }) ∧
    (list_products (some h) s).2.product.length = 3 ∧
    list_products (some h) (list_products (some h) s).2 =
      ((list_products (some h) s).1, (list_products (some h) s).2) := by
  obtain ⟨prod, ord, n⟩ := s
  simp only at hp
  subst hp
  refine ⟨?_, ?_, ?_⟩ <;> rfl

/-- C1 witness: the seeding behavior evaluated at the concrete empty store. -/
theorem C1_witness :
    list_products (some wdb) emptyStore =
      (.ok
        [{ id := toString emptyStore.nextId, title := "Minimalist Chair",
           description := some "A modern, comfortable chair with a minimalist design.",
           price := (8999 / 100 : ℚ), category := "Furniture",
           image := some "https://images.unsplash.com/photo-1549187774-b4e9b0445b41?q=80&w=1200&auto=format&fit=crop",
           in_stock := true },
         { id := toString (emptyStore.nextId + 1), title := "Wireless Headphones",
           description := some "Noise-cancelling over-ear headphones with 30h battery.",
           price := (129 : ℚ), category := "Electronics",
           image := some "https://images.unsplash.com/photo-1518449037270-3c0758cd7ed0?q=80&w=1200&auto=format&fit=crop",
           in_stock := true },
         { id := toString (emptyStore.nextId + 2), title := "Ceramic Mug",
           description := some "Handmade ceramic mug for coffee or tea (350ml).",
           price := (33 / 2 : ℚ), category := "Kitchen",
           image := some "https://images.unsplash.com/photo-1509463531436-7b8b53f6d4ba?q=80&w=1200&auto=format&fit=crop",
           in_stock := true }],
       { emptyStore with product := sample_products emptyStore.nextId,
                         nextId := emptyStore.nextId + 3 }) ∧
    (list_products (some wdb) emptyStore).2.product.length = 3 ∧
    list_products (some wdb) (list_products (some wdb) emptyStore).2 =
      ((list_products (some wdb) emptyStore).1, (list_products (some wdb) emptyStore).2) :=
  C1_first_list_seeds_three wdb emptyStore rfl

/-- C2: when the store is unconfigured, `GET /api/products`,
`POST /api/products` and `POST /api/orders` each return a 500 error with
the fixed detail "Database not configured" and leave the store untouched,
while `GET /test` still returns its success response with the `database`
field indicating that the database is not initialized. -/
theorem C2_unconfigured_500 (s : Store) (env : Env) (pb ob : JObj)
    (p : Product) (o : Order)
    (hp : validateProduct pb = .ok p) (ho : validateOrder ob = .ok o) :
    list_products none s = (.error (.http 500 "Database not configured"), s) ∧
    create_product pb none s = (.error (.http 500 "Database not configured"), s) ∧
    create_order ob none s = (.error (.http 500 "Database not configured"), s) ∧
    (ApiError.http 500 "Database not configured").status = 500 ∧
    test_database none env =
      { backend := "✅ Running"
        database := "⚠️  Available but not initialized"
        database_url := if env.database_url_set then "✅ Set" else "❌ Not Set"
        database_name := if env.database_name_set then "✅ Set" else "❌ Not Set"
        connection_status := "Not Connected"
        collections := [] } := by
  refine ⟨rfl, ?_, ?_, rfl, rfl⟩
  · simp [create_product, hp]
  · simp [create_order, ho]

/-- C2 witness: the unconfigured behavior at concrete valid payloads. -/
theorem C2_witness :
    list_products none emptyStore =
      (.error (.http 500 "Database not configured"), emptyStore) ∧
    create_product lampBody none emptyStore =
      (.error (.http 500 "Database not configured"), emptyStore) ∧
    create_order wOrderBody none emptyStore =
      (.error (.http 500 "Database not configured"), emptyStore) ∧
    (ApiError.http 500 "Database not configured").status = 500 ∧
    test_database none wEnv =
      { backend := "✅ Running"
        database := "⚠️  Available but not initialized"
        database_url := if wEnv.database_url_set then "✅ Set" else "❌ Not Set"
        database_name := if wEnv.database_name_set then "✅ Set" else "❌ Not Set"
        connection_status := "Not Connected"
        collections := [] } :=
  C2_unconfigured_500 emptyStore wEnv lampBody wOrderBody lampProduct wOrder rfl rfl

/-- C3: for every stored product document whose `title` is present, the
response mapping succeeds; a missing `in_stock` maps to `true`, a missing
`category` to `"General"`, a missing `price` to `0`; the `id` is the string
form of the stored identity, and missing `description` or `image` map to
null rather than failing. -/
theorem C3_response_defaults (d : Doc) (t : String) (ht : d.title = some t) :
    to_response d =
      some { id := toString d.oid, title := t, description := d.description,
             price := d.price.getD 0, category := d.category.getD "General",
             image := d.image, in_stock := d.in_stock.getD true } ∧
    (d.in_stock = none → (to_response d).map ProductResponse.in_stock = some true) ∧
    (d.category = none → (to_response d).map ProductResponse.category = some "General") ∧
    (d.price = none → (to_response d).map ProductResponse.price = some 0) ∧
    (d.description = none → (to_response d).map ProductResponse.description = some none) ∧
    (d.image = none → (to_response d).map ProductResponse.image = some none) := by
  have h := to_response_eq_some d t ht
  refine ⟨h, ?_, ?_, ?_, ?_, ?_⟩ <;> intro hnone <;> simp [h, hnone]

/-- C3 witness: the defaults evaluated at a document with only a title. -/
theorem C3_witness :
    to_response bareDoc =
      some { id := toString bareDoc.oid, title := "Legacy Widget",
             description := bareDoc.description,
             price := bareDoc.price.getD 0,
             category := bareDoc.category.getD "General",
             image := bareDoc.image,
             in_stock := bareDoc.in_stock.getD true } ∧
    (bareDoc.in_stock = none →
      (to_response bareDoc).map ProductResponse.in_stock = some true) ∧
    (bareDoc.category = none →
      (to_response bareDoc).map ProductResponse.category = some "General") ∧
    (bareDoc.price = none →
      (to_response bareDoc).map ProductResponse.price = some 0) ∧
    (bareDoc.description = none →
      (to_response bareDoc).map ProductResponse.description = some none) ∧
    (bareDoc.image = none →
      (to_response bareDoc).map ProductResponse.image = some none) :=
  C3_response_defaults bareDoc "Legacy Widget" rfl

/-- C4: every valid order payload is acknowledged with the fresh id and
status "received", and the order document is persisted verbatim into the
order collection — the stored payload equals the validated input exactly,
the product collection is untouched, and no consistency between the
monetary fields is required (the witness stores `total = 99` while
`subtotal + shipping + tax = 26`). -/
theorem C4_order_persisted_verbatim (body : JObj) (o : Order) (h : DbHandle)
    (s : Store) (hv : validateOrder body = .ok o) :
    create_order body (some h) s =
      (.ok { id := toString s.nextId, status := "received" },
       { s with order := s.order ++ [{ oid := s.nextId, data := o }],
                nextId := s.nextId + 1 }) ∧
    (create_order body (some h) s).2.order.map OrderDoc.data =
      s.order.map OrderDoc.data ++ [o] ∧
    (create_order body (some h) s).2.product = s.product := by
  refine ⟨?_, ?_, ?_⟩ <;> simp [create_order, hv]

/-- C4 witness: the verbatim insert at a concrete payload whose caller-
supplied totals do not add up, showing no recomputation happens. -/
theorem C4_witness :
    (create_order wOrderBody (some wdb) emptyStore =
      (.ok { id := toString emptyStore.nextId, status := "received" },
       { emptyStore with
           order := emptyStore.order ++ [{ oid := emptyStore.nextId, data := wOrder }],
           nextId := emptyStore.nextId + 1 }) ∧
    (create_order wOrderBody (some wdb) emptyStore).2.order.map OrderDoc.data =
      emptyStore.order.map OrderDoc.data ++ [wOrder] ∧
    (create_order wOrderBody (some wdb) emptyStore).2.product = emptyStore.product) ∧
    wOrder.subtotal + wOrder.shipping + wOrder.tax ≠ wOrder.total :=
  ⟨C4_order_persisted_verbatim wOrderBody wOrder wdb emptyStore rfl,
   by norm_num [wOrder]⟩

/-- C5: a payload violating a schema constraint — a required field such as
`title`, `price` or `category` missing, `price < 0`, `quantity < 1`, or a
field of a type the schema rejects (for the numeric fields, a value that
even pydantic lax coercion cannot turn into a number: a non-numeric
string, an array, an object, or null — numeric strings are coerced, not
rejected) — is rejected with a 422 validation error naming the offending
field, and the store is left untouched. -/
theorem C5_validation_prevents_persistence (db : Option DbHandle) (s : Store)
    (pb ob : JObj) :
    (jLookup pb "title" = none →
       ∃ fs, "title" ∈ fs ∧ (ApiError.validation fs).status = 422 ∧
         create_product pb db s = (.error (.validation fs), s)) ∧
    ((jLookup pb "price" = none ∨
      (∃ q, jLookup pb "price" = some (.num q) ∧ q < 0) ∨
      (∃ sv, jLookup pb "price" = some (.str sv) ∧ parseRat sv = none) ∨
      (∃ vs, jLookup pb "price" = some (.arr vs)) ∨
      (∃ fv, jLookup pb "price" = some (.obj fv)) ∨
      jLookup pb "price" = some .null) →
       ∃ fs, "price" ∈ fs ∧ (ApiError.validation fs).status = 422 ∧
         create_product pb db s = (.error (.validation fs), s)) ∧
    (jLookup pb "category" = none →
       ∃ fs, "category" ∈ fs ∧ (ApiError.validation fs).status = 422 ∧
         create_product pb db s = (.error (.validation fs), s)) ∧
    (∀ xs f q, jLookup ob "items" = some (.arr xs) → JValue.obj f ∈ xs →
       jLookup f "quantity" = some (.num q) → q < 1 →
       ∃ fs, "items" ∈ fs ∧ (ApiError.validation fs).status = 422 ∧
         create_order ob db s = (.error (.validation fs), s)) := by
  refine ⟨?_, ?_, ?_, ?_⟩
  · intro h
    have ht : vReqStr pb "title" = none := by simp [vReqStr, h]
    have hv := validateProduct_error_of pb (Or.inl ht)
    exact ⟨productErrors pb, by simp [productErrors, ht], rfl,
           by simp [create_product, hv]⟩
  · intro h
    have hpm : vReqMoney pb "price" = none := by
      rcases h with h | ⟨q, hq, hlt⟩ | ⟨sv, hsv, hpn⟩ | ⟨vs, hvs⟩ | ⟨fv, hfv⟩ | h
      · simp [vReqMoney, h]
      · simp [vReqMoney, hq, not_le.mpr hlt]
      · simp [vReqMoney, hsv, hpn]
      · simp [vReqMoney, hvs]
      · simp [vReqMoney, hfv]
      · simp [vReqMoney, h]
    have hv := validateProduct_error_of pb (Or.inr (Or.inl hpm))
    exact ⟨productErrors pb, by simp [productErrors, hpm], rfl,
           by simp [create_product, hv]⟩
  · intro h
    have hc : vReqStr pb "category" = none := by simp [vReqStr, h]
    have hv := validateProduct_error_of pb (Or.inr (Or.inr hc))
    exact ⟨productErrors pb, by simp [productErrors, hc], rfl,
           by simp [create_product, hv]⟩
  · intro xs f q hi hm hq hlt
    have hn : ¬ (1 : ℚ) ≤ q := not_le.mpr hlt
    have hqty : vReqQty f "quantity" = none := by
      simp [vReqQty, hq, hn]
    have hitem := validateOrderItem_error_of_qty f hqty
    have hlist := validateItemList_error_of_mem xs f hm ⟨_, hitem⟩
    have hvi : vItems ob = .error () := by simp [vItems, hi, hlist]
    obtain ⟨hvo, hmem⟩ := validateOrder_error_of_items ob hvi
    exact ⟨orderErrors ob, hmem, rfl, by simp [create_order, hvo]⟩

/-- C5 witness: a negative price, a non-numeric string price and a zero
quantity, each rejected with the offending field named and no store
change. -/
theorem C5_witness :
    (∃ fs, "price" ∈ fs ∧ (ApiError.validation fs).status = 422 ∧
       create_product badPriceBody (some wdb) emptyStore =
         (.error (.validation fs), emptyStore)) ∧
    (∃ fs, "price" ∈ fs ∧ (ApiError.validation fs).status = 422 ∧
       create_product wrongPriceBody (some wdb) emptyStore =
         (.error (.validation fs), emptyStore)) ∧
    (∃ fs, "items" ∈ fs ∧ (ApiError.validation fs).status = 422 ∧
       create_order zeroQtyOrderBody (some wdb) emptyStore =
         (.error (.validation fs), emptyStore)) :=
  ⟨(C5_validation_prevents_persistence (some wdb) emptyStore badPriceBody
      zeroQtyOrderBody).2.1
      (Or.inr (Or.inl ⟨-5, rfl, by norm_num⟩)),
   (C5_validation_prevents_persistence (some wdb) emptyStore wrongPriceBody
      zeroQtyOrderBody).2.1
      (Or.inr (Or.inr (Or.inl ⟨"ten", rfl, rfl⟩))),
   (C5_validation_prevents_persistence (some wdb) emptyStore badPriceBody
      zeroQtyOrderBody).2.2.2
      [.obj zeroQtyItemFields] zeroQtyItemFields 0 rfl
      (List.mem_singleton.mpr rfl) rfl (by norm_num)⟩

/-- C6: for every valid product payload sent while the store is configured,
`POST /api/products` persists exactly one document and returns an id that
subsequently appears among the ids of `GET /api/products` (assuming the
documents already stored are well-formed enough to list). -/
theorem C6_created_id_listed (pb : JObj) (p : Product) (h : DbHandle)
    (s : Store) (hv : validateProduct pb = .ok p)
    (hw : ∀ d ∈ s.product, (d.title).isSome) :
    create_product pb (some h) s =
      (.ok (toString s.nextId),
       { s with product := s.product ++ [docOfProduct s.nextId p],
                nextId := s.nextId + 1 }) ∧
    (create_product pb (some h) s).2.product.length = s.product.length + 1 ∧
    ∃ rs, (list_products (some h) (create_product pb (some h) s).2).1 = .ok rs ∧
      toString s.nextId ∈ rs.map ProductResponse.id := by
  have hcp : create_product pb (some h) s =
      (.ok (toString s.nextId),
       { s with product := s.product ++ [docOfProduct s.nextId p],
                nextId := s.nextId + 1 }) := by
    simp [create_product, hv]
  refine ⟨hcp, by simp [hcp], ?_⟩
  have hall : ∀ d ∈ s.product ++ [docOfProduct s.nextId p], (d.title).isSome := by
    intro d hd
    rcases List.mem_append.mp hd with hd | hd
    · exact hw d hd
    · rcases List.mem_singleton.mp hd with rfl
      simp [docOfProduct]
  obtain ⟨rs, hrs, hid⟩ := mapResponses_eq_some _ hall
  refine ⟨rs, ?_, ?_⟩
  · have hlen : (s.product ++ [docOfProduct s.nextId p]).length ≠ 0 := by
      simp
    simp only [hcp, list_products]
    simp [hlen, hrs]
  · rw [hid]
    simp [docOfProduct]

/-- C6 witness: creating a product in the empty configured store and
finding its id in the subsequent listing. -/
theorem C6_witness :
    create_product lampBody (some wdb) emptyStore =
      (.ok (toString emptyStore.nextId),
       { emptyStore with
           product := emptyStore.product ++ [docOfProduct emptyStore.nextId lampProduct],
           nextId := emptyStore.nextId + 1 }) ∧
    (create_product lampBody (some wdb) emptyStore).2.product.length =
      emptyStore.product.length + 1 ∧
    ∃ rs, (list_products (some wdb) (create_product lampBody (some wdb) emptyStore).2).1 = .ok rs ∧
      toString emptyStore.nextId ∈ rs.map ProductResponse.id :=
  C6_created_id_listed lampBody lampProduct wdb emptyStore rfl
    (by intro d hd; cases hd)

/-- C7: `GET /test` is total (never fails): the backend tag is fixed, the
configuration flags come only from the environment variables, the
collections list is capped at the first 10 names and is empty when the
store is unconfigured or enumeration fails, and an enumeration failure is
folded into the `database` string with the error text truncated to 50
characters. -/
theorem C7_diagnostics_never_fail (db : Option DbHandle) (env : Env) :
    (test_database db env).backend = "✅ Running" ∧
    (test_database db env).collections.length ≤ 10 ∧
    (test_database db env).database_url =
      (if env.database_url_set then "✅ Set" else "❌ Not Set") ∧
    (test_database db env).database_name =
      (if env.database_name_set then "✅ Set" else "❌ Not Set") ∧
    (∀ h e, db = some h → h.listCollections = .error e →
       (test_database db env).collections = [] ∧
       (test_database db env).database = "⚠️  Connected but Error: " ++ e.take 50 ∧
       (e.take 50).length ≤ 50) ∧
    (∀ h cs, db = some h → h.listCollections = .ok cs →
       (test_database db env).collections = cs.take 10 ∧
       (test_database db env).database = "✅ Connected & Working") ∧
    (db = none →
       (test_database db env).database = "⚠️  Available but not initialized" ∧
       (test_database db env).collections = []) := by
  refine ⟨rfl, ?_, rfl, rfl, ?_, ?_, ?_⟩
  · cases db with
    | none => simp [test_database]
    | some h =>
        cases hc : h.listCollections with
        | ok cs =>
            simp only [test_database, hc]
            rw [List.length_take]
            exact Nat.min_le_left _ _
        | error e => simp [test_database, hc]
  · rintro h e rfl hc
    refine ⟨by simp [test_database, hc], by simp [test_database, hc], ?_⟩
    rw [String.take_eq]
    show (e.data.take 50).length ≤ 50
    rw [List.length_take]
    exact Nat.min_le_left _ _
  · rintro h cs rfl hc
    exact ⟨by simp [test_database, hc], by simp [test_database, hc]⟩
  · rintro rfl
    exact ⟨rfl, rfl⟩

/-- C7 witness: the diagnostics response for a store that fails on
introspection with an 89-character error message. -/
theorem C7_witness :
    (test_database (some wErrDb) wEnv).collections = [] ∧
    (test_database (some wErrDb) wEnv).database =
      "⚠️  Connected but Error: " ++ wLongMsg.take 50 ∧
    (wLongMsg.take 50).length ≤ 50 :=
  (C7_diagnostics_never_fail (some wErrDb) wEnv).2.2.2.2.1 wErrDb wLongMsg rfl rfl

/-- C8 counterexample: the order schema requires the `items` field but puts
no non-empty constraint on it, so a payload whose `items` list is empty
validates, is accepted by `POST /api/orders` with status "received", and
is persisted — refuting the claimed rejection. -/
theorem C8_counterexample :
    validateOrder emptyItemsBody = .ok wEmptyOrder ∧
    create_order emptyItemsBody (some wdb) emptyStore =
      (.ok { id := "0", status := "received" },
       { product := [], order := [{ oid := 0, data := wEmptyOrder }], nextId := 1 }) ∧
    (create_order emptyItemsBody (some wdb) emptyStore).2.order ≠ [] :=
  ⟨rfl, rfl, fun h => List.cons_ne_nil _ _ h⟩

/-- C8 (amended): the `items` field of an order is required — a payload
missing it is rejected as a validation error naming `items`, with nothing
persisted — but an empty `items` list satisfies the schema, so such an
order is accepted and persisted verbatim. -/
theorem C8_amended_items_required (db : Option DbHandle) (s : Store)
    (ob1 ob2 : JObj) (o : Order) (h : DbHandle) :
    (jLookup ob1 "items" = none →
       ∃ fs, "items" ∈ fs ∧
         create_order ob1 db s = (.error (.validation fs), s)) ∧
    (validateOrder ob2 = .ok o → o.items = [] →
       create_order ob2 (some h) s =
         (.ok { id := toString s.nextId, status := "received" },
          { s with order := s.order ++ [{ oid := s.nextId, data := o }],
                   nextId := s.nextId + 1 })) := by
  constructor
  · intro hm
    have hvi : vItems ob1 = .error () := by simp [vItems, hm]
    obtain ⟨hvo, hmem⟩ := validateOrder_error_of_items ob1 hvi
    exact ⟨orderErrors ob1, hmem, by simp [create_order, hvo]⟩
  · intro hv _
    simp [create_order, hv]

/-- C8 witness: a payload without `items` is rejected naming the field;
the concrete empty-items payload is accepted and persisted. -/
theorem C8_witness :
    (∃ fs, "items" ∈ fs ∧
       create_order ([] : JObj) (some wdb) emptyStore =
         (.error (.validation fs), emptyStore)) ∧
    create_order emptyItemsBody (some wdb) emptyStore =
      (.ok { id := toString emptyStore.nextId, status := "received" },
       { emptyStore with
           order := emptyStore.order ++ [{ oid := emptyStore.nextId, data := wEmptyOrder }],
           nextId := emptyStore.nextId + 1 }) :=
  ⟨(C8_amended_items_required (some wdb) emptyStore [] emptyItemsBody
      wEmptyOrder wdb).1 rfl,
   (C8_amended_items_required (some wdb) emptyStore [] emptyItemsBody
      wEmptyOrder wdb).2 rfl rfl⟩

/-- C9: the framework validates the request body before the handler's
store check runs, so a malformed payload sent while the store is
unconfigured yields the 422 validation error naming the bad fields, never
the 500 "Database not configured" error. -/
theorem C9_validation_precedes_store_check (pb ob : JObj) (s : Store)
    (fsp fso : List String)
    (hp : validateProduct pb = .error fsp) (ho : validateOrder ob = .error fso) :
    create_product pb none s = (.error (.validation fsp), s) ∧
    (ApiError.validation fsp).status = 422 ∧
    ApiError.validation fsp ≠ .http 500 "Database not configured" ∧
    create_order ob none s = (.error (.validation fso), s) ∧
    (ApiError.validation fso).status = 422 ∧
    ApiError.validation fso ≠ .http 500 "Database not configured" := by
  exact ⟨by simp [create_product, hp], rfl, by simp,
         by simp [create_order, ho], rfl, by simp⟩

/-- C9 witness: the empty object as both payloads, with every required
field reported, while the store is unconfigured. -/
theorem C9_witness :
    create_product ([] : JObj) none emptyStore =
      (.error (.validation ["title", "price", "category"]), emptyStore) ∧
    (ApiError.validation ["title", "price", "category"]).status = 422 ∧
    ApiError.validation ["title", "price", "category"] ≠
      .http 500 "Database not configured" ∧
    create_order ([] : JObj) none emptyStore =
      (.error (.validation
        ["items", "subtotal", "shipping", "tax", "total", "customer_name",
         "customer_email", "address_line1", "city", "state", "postal_code",
         "country"]), emptyStore) ∧
    (ApiError.validation
        ["items", "subtotal", "shipping", "tax", "total", "customer_name",
         "customer_email", "address_line1", "city", "state", "postal_code",
         "country"]).status = 422 ∧
    ApiError.validation
        ["items", "subtotal", "shipping", "tax", "total", "customer_name",
         "customer_email", "address_line1", "city", "state", "postal_code",
         "country"] ≠ .http 500 "Database not configured" :=
  C9_validation_precedes_store_check [] [] emptyStore _ _ rfl rfl

/-- C10: the response mapping is partial on required fields — when some
stored product document lacks `title`, `GET /api/products` does not return
a list at all: the response-model validation raises and the request fails
with a 500 server error. -/
theorem C10_missing_title_fails_listing (h : DbHandle) (s : Store) (d : Doc)
    (hd : d ∈ s.product) (ht : d.title = none) :
    (list_products (some h) s).1 = .error .internal ∧
    ApiError.internal.status = 500 ∧
    ∀ rs, (list_products (some h) s).1 ≠ .ok rs := by
  have hne : s.product.length ≠ 0 := by
    have := List.ne_nil_of_mem hd
    simpa [List.length_eq_zero] using this
  have hmap := mapResponses_eq_none s.product d hd ht
  have h1 : (list_products (some h) s).1 = .error .internal := by
    simp only [list_products]
    simp [hne, hmap]
  exact ⟨h1, rfl, fun rs hrs => by rw [h1] at hrs; cases hrs⟩

/-- C10 witness: a store holding one title-less document makes the listing
fail with the internal 500 error. -/
theorem C10_witness :
    (list_products (some wdb) noTitleStore).1 = .error .internal ∧
    ApiError.internal.status = 500 ∧
    ∀ rs, (list_products (some wdb) noTitleStore).1 ≠ .ok rs :=
  C10_missing_title_fails_listing wdb noTitleStore noTitleDoc
    (List.mem_singleton.mpr rfl) rfl
